import Mathlib

/-!
Shallow embedding of `backend/search_tools.py` (CourseSearchTool and ToolManager).

The vector store is an external collaborator: we model it as a pair of pure
functions (content search and course catalog) supplied as parameters, so a
`SearchResults` value and the catalog's responses are inputs of the embedded
operations.  Python dictionaries with optional keys become structures with
`Option` fields; Python truthiness tests (`if results.error:`, `if course_name:`,
`if lesson_number:`, `if course_meta:`, `if lesson_info:`) are translated
explicitly: an empty string, the integer 0, an absent value and an empty dict
are falsy.
-/

namespace SearchTools

/-- Metadata mapping attached to one hit, as read by `_format_results`:
`meta.get('course_title', 'unknown')` and `meta.get('lesson_number')`. -/
structure HitMeta where
  course_title : Option String
  lesson_number : Option Int
deriving DecidableEq, Repr

/-- The external `SearchResults` value: parallel `documents` and `metadata`
sequences plus an optional `error` message. -/
structure SearchResults where
  documents : List String
  metadata : List HitMeta
  error : Option String
deriving DecidableEq, Repr

/-- Modelled from the spec: `SearchResults.is_empty` is defined in
`vector_store.py`, a collaborator module not present in this snapshot.  The
spec describes `SearchResults` as an ordered sequence of (document, metadata)
pairs exposing an emptiness check, so the result set is empty exactly when it
has no documents. -/
def SearchResults.is_empty (r : SearchResults) : Bool :=
  r.documents.isEmpty

/-- One entry of the parsed `lessons` list inside a catalog metadata record:
a dict read with `lesson.get('lesson_number')`, `lesson.get('lesson_title')`,
`lesson.get('lesson_link')`. -/
structure Lesson where
  lesson_number : Option Int
  lesson_title : Option String
  lesson_link : Option String
deriving DecidableEq, Repr

/-- Outcome of `json.loads` on a stored `lessons_json` field: either it raises
(malformed JSON) or yields a lesson list. -/
inductive LessonsJson where
  | parseError : LessonsJson
  | parsed : List Lesson → LessonsJson
deriving DecidableEq, Repr

/-- What `self.store.course_catalog.get(ids=[course_title])` does for a given
title: raise an exception, return no metadata record, or return one metadata
record with optional `course_link` and `instructor` keys and an optional
serialized `lessons_json` field. -/
inductive RawCatalog where
  | raiseExc : RawCatalog
  | noEntry : RawCatalog
  | entry : Option String → Option String → Option LessonsJson → RawCatalog
deriving DecidableEq, Repr

/-- A course metadata dict as used after `_get_course_metadata` succeeded:
optional course-level fields and the parsed lesson list
(`course_meta.get('lessons', [])`). -/
structure CourseMeta where
  course_link : Option String
  instructor : Option String
  lessons : List Lesson
deriving DecidableEq, Repr

/-- `_get_course_metadata`: look the title up in the catalog, parse the
`lessons_json` field when present, and degrade to the empty dict `{}` (here
`none`, which is falsy) when the lookup raises, finds nothing, or the JSON
parse raises (the `except` clause catches, logs and falls through to
`return {}`). -/
def get_course_metadata (catalog : String → RawCatalog) (course_title : String) :
    Option CourseMeta :=
  match catalog course_title with
  | RawCatalog.raiseExc => none
  | RawCatalog.noEntry => none
  | RawCatalog.entry link instr lj =>
    match lj with
    | none => some { course_link := link, instructor := instr, lessons := [] }
    | some LessonsJson.parseError => none
    | some (LessonsJson.parsed ls) =>
        some { course_link := link, instructor := instr, lessons := ls }

/-- `_get_lesson_info`: first lesson whose `lesson_number` equals the given
number; the Python `return {}` fallthrough (falsy) is `none` here. -/
def get_lesson_info (course_meta : CourseMeta) (lesson_number : Int) :
    Option Lesson :=
  course_meta.lessons.find? (fun lesson => lesson.lesson_number == some lesson_number)

/-- The rich source dict built in `_format_results` for one unique
(course_title, lesson_number) key. -/
structure Source where
  course_title : String
  course_link : Option String
  instructor : Option String
  lesson_number : Option Int
  lesson_title : Option String
  lesson_link : Option String
deriving DecidableEq, Repr

/-- The deduplication key of a Source record. -/
def Source.key (s : Source) : String × Option Int :=
  (s.course_title, s.lesson_number)

/-- The (course_title, lesson_number) key of one hit, after the
`'unknown'` default. -/
def hitKey (meta : HitMeta) : String × Option Int :=
  (meta.course_title.getD "unknown", meta.lesson_number)

/-- The per-hit context header: `[<course_title>]`, with
` - Lesson <n>` inserted when the hit has a lesson number. -/
def headerOf (meta : HitMeta) : String :=
  "[" ++ meta.course_title.getD "unknown"
      ++ (match meta.lesson_number with
          | some n => " - Lesson " ++ toString n
          | none => "")
      ++ "]"

/-- The `source_info` construction of `_format_results` (lines 118-132) for a
fresh key: course-level fields copied from the catalog metadata when that is
truthy, else `None`; lesson fields populated only when the hit has a lesson
number, the catalog metadata is truthy and a matching lesson entry is found.
The per-call `course_metadata_cache` is a memoization of the deterministic
`_get_course_metadata`, so it is collapsed to a direct call. -/
def mkSource (catalog : String → RawCatalog) (course_title : String)
    (lesson_num : Option Int) : Source :=
  let course_meta := get_course_metadata catalog course_title
  let base : Source :=
    { course_title := course_title
      course_link := Option.bind course_meta CourseMeta.course_link
      instructor := Option.bind course_meta CourseMeta.instructor
      lesson_number := lesson_num
      lesson_title := none
      lesson_link := none }
  match lesson_num, course_meta with
  | some n, some cm =>
    match get_lesson_info cm n with
    | some lesson =>
        { base with lesson_title := lesson.lesson_title
                    lesson_link := lesson.lesson_link }
    | none => base
  | _, _ => base

/-- The loop body of `_format_results` over `zip(results.documents,
results.metadata)`, carrying the `seen_sources` set: returns the list of
formatted per-hit entries and the deduplicated source list, both in hit
order. -/
def formatLoop (catalog : String → RawCatalog) :
    List (String × HitMeta) → List (String × Option Int) →
    List String × List Source
  | [], _ => ([], [])
  | (doc, meta) :: rest, seen =>
    let course_title := meta.course_title.getD "unknown"
    let lesson_num := meta.lesson_number
    let source_key := (course_title, lesson_num)
    if source_key ∈ seen then
      let r := formatLoop catalog rest seen
      ((headerOf meta ++ "\n" ++ doc) :: r.1, r.2)
    else
      let r := formatLoop catalog rest (source_key :: seen)
      ((headerOf meta ++ "\n" ++ doc) :: r.1,
       mkSource catalog course_title lesson_num :: r.2)

/-- `_format_results`: the returned formatted text and the source list that the
method assigns to `self.last_sources`. -/
def format_results (catalog : String → RawCatalog) (results : SearchResults) :
    String × List Source :=
  let r := formatLoop catalog (results.documents.zip results.metadata) []
  (String.intercalate "\n\n" r.1, r.2)

/-- The tool's mutable state: `self.last_sources`. -/
structure ToolState where
  last_sources : List Source
deriving DecidableEq, Repr

/-- The external vector store collaborator: the unified search interface and
the course catalog. -/
structure VectorStore where
  search : String → Option String → Option Int → SearchResults
  catalog : String → RawCatalog

/-- Python truthiness of `results.error` (an optional string): truthy exactly
when present and non-empty. -/
def errTruthy : Option String → Bool
  | none => false
  | some e => !(e == "")

/-- Python truthiness of the optional `course_name` argument. -/
def strTruthy : Option String → Bool
  | none => false
  | some s => !(s == "")

/-- Python truthiness of the optional `lesson_number` argument. -/
def intTruthy : Option Int → Bool
  | none => false
  | some n => !(n == 0)

/-- The `filter_info` string built on the empty-result path of `execute`. -/
def filterInfo (course_name : Option String) (lesson_number : Option Int) : String :=
  (if strTruthy course_name
   then " in course \x27" ++ course_name.getD "" ++ "\x27"
   else "")
  ++ (if intTruthy lesson_number
      then " in lesson " ++ toString (lesson_number.getD 0)
      else "")

/-- `CourseSearchTool.execute`: search the store, return a truthy error
verbatim, synthesize a message for an empty result set, otherwise format the
results; returns the text together with the tool state after the call
(`self.last_sources` is assigned only inside `_format_results`). -/
def execute (store : VectorStore) (query : String) (course_name : Option String)
    (lesson_number : Option Int) (st : ToolState) : String × ToolState :=
  let results := store.search query course_name lesson_number
  if errTruthy results.error then
    (results.error.getD "", st)
  else if results.is_empty then
    ("No relevant content found" ++ filterInfo course_name lesson_number ++ ".", st)
  else
    let r := format_results store.catalog results
    (r.1, { last_sources := r.2 })

/-- A tool registered in a ToolManager, as seen by `get_last_sources`: either a
CourseSearchTool carrying a `last_sources` attribute, or some other tool
without that attribute. -/
inductive MTool where
  | searchTool : ToolState → MTool
  | otherTool : MTool
deriving DecidableEq, Repr

/-- `ToolManager.get_last_sources`: scan `self.tools.values()` (a Python dict
iterates in insertion order) and return the first truthy `last_sources`
attribute found, else the empty list. -/
def get_last_sources : List (String × MTool) → List Source
  | [] => []
  | (_, MTool.searchTool st) :: rest =>
    if st.last_sources.isEmpty then get_last_sources rest else st.last_sources
  | (_, MTool.otherTool) :: rest => get_last_sources rest

/-- First-occurrence deduplication of a key list relative to an
already-seen set: the keys for which `formatLoop` creates a Source record,
in creation order. -/
def dedupKeys : List (String × Option Int) → List (String × Option Int) →
    List (String × Option Int)
  | [], _ => []
  | k :: ks, seen =>
    if k ∈ seen then dedupKeys ks seen else k :: dedupKeys ks (k :: seen)

end SearchTools

namespace SearchTools

/-- The key of the Source record built for a key is that key. -/
theorem mkSource_key (catalog : String → RawCatalog) (ct : String) (ln : Option Int) :
    (mkSource catalog ct ln).key = (ct, ln) := by
  unfold mkSource Source.key
  cases hln : ln with
  | none => rfl
  | some n =>
    cases hcm : get_course_metadata catalog ct with
    | none => rfl
    | some cm =>
      cases hli : get_lesson_info cm n with
      | none => simp [hln, hcm, hli]
      | some lesson => simp [hln, hcm, hli]

/-- Closed form of the `_format_results` loop: the formatted entries are one
per hit in hit order (independent of the seen set), and the source list is the
Source record of each first-occurrence key, in first-occurrence order. -/
theorem formatLoop_eq (catalog : String → RawCatalog)
    (hits : List (String × HitMeta)) :
    ∀ seen, formatLoop catalog hits seen =
      (hits.map (fun p => headerOf p.2 ++ "\n" ++ p.1),
       (dedupKeys (hits.map (fun p => hitKey p.2)) seen).map
         (fun k => mkSource catalog k.1 k.2)) := by
  induction hits with
  | nil => intro seen; rfl
  | cons p rest ih =>
    intro seen
    obtain ⟨doc, meta⟩ := p
    simp only [formatLoop, List.map, dedupKeys, hitKey]
    by_cases h : (meta.course_title.getD "unknown", meta.lesson_number) ∈ seen
    · simp [h, ih, hitKey]
    · simp [h, ih, hitKey]

/-- A key produced by `dedupKeys` comes from the input list and was not
already seen. -/
theorem mem_dedupKeys (k : String × Option Int) (ks : List (String × Option Int)) :
    ∀ seen, k ∈ dedupKeys ks seen ↔ k ∈ ks ∧ k ∉ seen := by
  induction ks with
  | nil => intro seen; simp [dedupKeys]
  | cons a ks ih =>
    intro seen
    simp only [dedupKeys]
    by_cases h : a ∈ seen
    · simp only [if_pos h, ih, List.mem_cons]
      constructor
      · rintro ⟨hk, hns⟩; exact ⟨Or.inr hk, hns⟩
      · rintro ⟨hk | hk, hns⟩
        · exact absurd (hk ▸ h) hns
        · exact ⟨hk, hns⟩
    · simp only [if_neg h, List.mem_cons, ih, not_or]
      constructor
      · rintro (rfl | ⟨hk, hka, hns⟩)
        · exact ⟨Or.inl rfl, h⟩
        · exact ⟨Or.inr hk, hns⟩
      · rintro ⟨hka | hk, hns⟩
        · exact Or.inl hka
        · by_cases hk2 : k = a
          · exact Or.inl hk2
          · exact Or.inr ⟨hk, hk2, hns⟩

/-- `dedupKeys` produces a list without duplicates. -/
theorem dedupKeys_nodup (ks : List (String × Option Int)) :
    ∀ seen, (dedupKeys ks seen).Nodup := by
  induction ks with
  | nil => intro seen; simp [dedupKeys]
  | cons a ks ih =>
    intro seen
    simp only [dedupKeys]
    by_cases h : a ∈ seen
    · simpa [h] using ih seen
    · simp only [if_neg h, List.nodup_cons]
      refine ⟨fun hmem => ?_, ih (a :: seen)⟩
      exact ((mem_dedupKeys a ks (a :: seen)).mp hmem).2 (List.mem_cons_self a _)

end SearchTools

namespace SearchTools

/-- On a truthy store error, `execute` returns the error text and its input
state. -/
theorem execute_error_path (store : VectorStore) (q : String) (cn : Option String)
    (ln : Option Int) (st : ToolState)
    (h : errTruthy (store.search q cn ln).error = true) :
    execute store q cn ln st = ((store.search q cn ln).error.getD "", st) := by
  simp [execute, h]

/-- On the empty-result path, `execute` returns the synthesized message and its
input state. -/
theorem execute_empty_path (store : VectorStore) (q : String) (cn : Option String)
    (ln : Option Int) (st : ToolState)
    (h1 : errTruthy (store.search q cn ln).error = false)
    (h2 : (store.search q cn ln).is_empty = true) :
    execute store q cn ln st =
      ("No relevant content found" ++ filterInfo cn ln ++ ".", st) := by
  simp [execute, h1, h2]

/-- On the formatting path, `execute` returns the formatted text and replaces
`last_sources` with the freshly computed source list. -/
theorem execute_format_path (store : VectorStore) (q : String) (cn : Option String)
    (ln : Option Int) (st : ToolState)
    (h1 : errTruthy (store.search q cn ln).error = false)
    (h2 : (store.search q cn ln).is_empty = false) :
    execute store q cn ln st =
      ((format_results store.catalog (store.search q cn ln)).1,
       { last_sources := (format_results store.catalog (store.search q cn ln)).2 }) := by
  simp [execute, h1, h2]

/-- The text component of `_format_results`: one block per hit, joined by
blank lines, in hit order. -/
theorem format_results_fst (catalog : String → RawCatalog) (r : SearchResults) :
    (format_results catalog r).1 =
      String.intercalate "\n\n"
        ((r.documents.zip r.metadata).map fun p => headerOf p.2 ++ "\n" ++ p.1) := by
  simp [format_results, formatLoop_eq]

/-- The source component of `_format_results`: the Source record of each
first-occurrence key, in first-occurrence order. -/
theorem format_results_snd (catalog : String → RawCatalog) (r : SearchResults) :
    (format_results catalog r).2 =
      (dedupKeys ((r.documents.zip r.metadata).map fun p => hitKey p.2) []).map
        (fun k => mkSource catalog k.1 k.2) := by
  simp [format_results, formatLoop_eq]

/-- All three failure modes of `_get_course_metadata` (exception, not found,
malformed lessons JSON) degrade to the empty record. -/
theorem get_course_metadata_none (catalog : String → RawCatalog) (ct : String)
    (h : catalog ct = RawCatalog.raiseExc ∨ catalog ct = RawCatalog.noEntry ∨
         ∃ l i, catalog ct = RawCatalog.entry l i (some LessonsJson.parseError)) :
    get_course_metadata catalog ct = none := by
  rcases h with h | h | ⟨l, i, h⟩ <;> simp [get_course_metadata, h]

/-- With empty course metadata, the built Source has every optional field
null. -/
theorem mkSource_of_no_metadata (catalog : String → RawCatalog) (ct : String)
    (ln : Option Int) (h : get_course_metadata catalog ct = none) :
    mkSource catalog ct ln =
      { course_title := ct, course_link := none, instructor := none,
        lesson_number := ln, lesson_title := none, lesson_link := none } := by
  cases ln <;> simp [mkSource, h]

/-- `get_last_sources` over tools that carry no `last_sources` attribute is
empty. -/
theorem get_last_sources_all_other (l : List (String × MTool))
    (h : ∀ t ∈ l, t.2 = MTool.otherTool) :
    get_last_sources l = [] := by
  induction l with
  | nil => rfl
  | cons t rest ih =>
    obtain ⟨nm, mt⟩ := t
    have hmt : mt = MTool.otherTool := h (nm, mt) (List.mem_cons_self _ _)
    subst hmt
    exact ih (fun t ht => h t (List.mem_cons_of_mem _ ht))

/-- With a single source-carrying tool in the registry, `get_last_sources`
returns exactly that tool's cached list. -/
theorem get_last_sources_single (pre post : List (String × MTool)) (nm : String)
    (st : ToolState)
    (hpre : ∀ t ∈ pre, t.2 = MTool.otherTool)
    (hpost : ∀ t ∈ post, t.2 = MTool.otherTool) :
    get_last_sources (pre ++ (nm, MTool.searchTool st) :: post) = st.last_sources := by
  induction pre with
  | nil =>
    simp only [List.nil_append, get_last_sources]
    by_cases h : st.last_sources.isEmpty
    · rw [if_pos h, get_last_sources_all_other post hpost]
      exact (List.isEmpty_iff.mp h).symm
    · rw [if_neg h]
  | cons t pre ih =>
    obtain ⟨n2, mt⟩ := t
    have hmt : mt = MTool.otherTool := hpre (n2, mt) (List.mem_cons_self _ _)
    subst hmt
    exact ih (fun t ht => hpre t (List.mem_cons_of_mem _ ht))

/-- `zip` only consumes the first `min` elements of each sequence. -/
theorem zip_take_min {α β : Type} (l1 : List α) (l2 : List β) :
    l1.zip l2 =
      (l1.take (min l1.length l2.length)).zip (l2.take (min l1.length l2.length)) := by
  induction l1 generalizing l2 with
  | nil => simp
  | cons a l1 ih =>
    cases l2 with
    | nil => simp
    | cons b l2 =>
      simp only [List.zip_cons_cons, List.length_cons, Nat.succ_min_succ,
        List.take_succ_cons, List.cons.injEq, true_and]
      exact ih l2

/-- The header formula, by cases on the presence of a lesson number. -/
theorem headerOf_cases (m : HitMeta) :
    headerOf m =
      (match m.lesson_number with
       | none => "[" ++ m.course_title.getD "unknown" ++ "]"
       | some n =>
         "[" ++ m.course_title.getD "unknown" ++ " - Lesson " ++ toString n ++ "]") := by
  obtain ⟨ct, lnum⟩ := m
  cases lnum <;> simp [headerOf, String.append_assoc]

end SearchTools

namespace SearchTools

/-- Lesson list of the demonstration catalog entry. -/
def demoLessons : List Lesson :=
  [{ lesson_number := some 1, lesson_title := some "Intro", lesson_link := some "http://mcp/1" },
   { lesson_number := some 2, lesson_title := some "Tools", lesson_link := none }]

/-- A demonstration catalog with one well-formed course entry. -/
def demoCatalog : String → RawCatalog := fun t =>
  if t = "MCP" then
    RawCatalog.entry (some "http://mcp") (some "Ada Lovelace")
      (some (LessonsJson.parsed demoLessons))
  else RawCatalog.noEntry

/-- A result set with a duplicated (course, lesson) key. -/
def demoResults : SearchResults :=
  { documents := ["docA", "docB", "docC"]
    metadata :=
      [{ course_title := some "MCP", lesson_number := some 1 },
       { course_title := some "MCP", lesson_number := some 1 },
       { course_title := some "MCP", lesson_number := some 2 }]
    error := none }

/-- A store whose search always returns `demoResults`. -/
def demoStore : VectorStore :=
  { search := fun _ _ _ => demoResults, catalog := demoCatalog }

/-- A store whose search always comes back empty. -/
def emptyStore : VectorStore :=
  { search := fun _ _ _ => { documents := [], metadata := [], error := none }
    catalog := fun _ => RawCatalog.noEntry }

/-- A store whose search always reports an error. -/
def errStore : VectorStore :=
  { search := fun _ _ _ =>
      { documents := [], metadata := [], error := some "connection timeout" }
    catalog := fun _ => RawCatalog.noEntry }

/-- A store that sets the error field to the empty string while also returning
a hit. -/
def blankErrStore : VectorStore :=
  { search := fun _ _ _ =>
      { documents := ["doc"]
        metadata := [{ course_title := some "MCP", lesson_number := some 1 }]
        error := some "" }
    catalog := demoCatalog }

/-- A store returning one hit whose catalog lookup always raises. -/
def failCatStore : VectorStore :=
  { search := fun _ _ _ =>
      { documents := ["docA"]
        metadata := [{ course_title := some "Ghost", lesson_number := some 4 }]
        error := none }
    catalog := fun _ => RawCatalog.raiseExc }

/-- A Source left over from an earlier call. -/
def staleSource : Source :=
  { course_title := "Old Course", course_link := none, instructor := none,
    lesson_number := some 9, lesson_title := none, lesson_link := none }

/-- C2: on a non-empty, error-free result set, `execute` returns the per-hit
blocks joined by a blank line in hit order; each block is the header, a
newline, then the raw document text; the header is `[title]` when the hit has
no lesson number and `[title - Lesson n]` otherwise, a missing course title
rendering as the literal `unknown`. -/
theorem C2_formatted_output (store : VectorStore) (q : String) (cn : Option String)
    (ln : Option Int) (st : ToolState)
    (herr : errTruthy (store.search q cn ln).error = false)
    (hne : (store.search q cn ln).is_empty = false) :
    (execute store q cn ln st).1 =
      String.intercalate "\n\n"
        (((store.search q cn ln).documents.zip (store.search q cn ln).metadata).map
          fun p =>
            (match p.2.lesson_number with
             | none => "[" ++ p.2.course_title.getD "unknown" ++ "]"
             | some n =>
               "[" ++ p.2.course_title.getD "unknown" ++ " - Lesson " ++ toString n ++ "]")
            ++ "\n" ++ p.1) := by
  rw [execute_format_path store q cn ln st herr hne]
  rw [format_results_fst store.catalog (store.search q cn ln)]
  congr 1
  apply List.map_congr_left
  intro p _
  rw [headerOf_cases]

/-- C2 witness: the formatting theorem evaluated on a concrete three-hit
result set. -/
theorem C2_witness :
    errTruthy (demoStore.search "What is MCP?" none none).error = false ∧
    (demoStore.search "What is MCP?" none none).is_empty = false ∧
    (execute demoStore "What is MCP?" none none { last_sources := [] }).1 =
      "[MCP - Lesson 1]\ndocA\n\n[MCP - Lesson 1]\ndocB\n\n[MCP - Lesson 2]\ndocC" :=
  ⟨rfl, rfl,
   (C2_formatted_output demoStore "What is MCP?" none none { last_sources := [] }
      rfl rfl).trans (by decide)⟩

/-- C3 counterexample: a store whose error field is set — to the empty string —
while returning a hit; `execute` neither returns the error verbatim nor leaves
the cached source list as it was, because `if results.error:` treats an empty
error string as falsy. -/
theorem C3_counterexample :
    (execute blankErrStore "q" none none { last_sources := [staleSource] }).1 ≠ "" ∧
    (execute blankErrStore "q" none none
        { last_sources := [staleSource] }).2.last_sources ≠ [staleSource] := by
  exact ⟨by decide, by decide⟩

/-- C3 amended: when the store returns its error field set to a non-empty
string, `execute` returns that string verbatim and the tool state — in
particular `last_sources` — is exactly what it was before the call; an error
field set to the empty string is falsy and is treated as no error. -/
theorem C3_error_returned_verbatim (store : VectorStore) (q : String)
    (cn : Option String) (ln : Option Int) (st : ToolState) (e : String)
    (herr : (store.search q cn ln).error = some e) (hne : e ≠ "") :
    (execute store q cn ln st).1 = e ∧ (execute store q cn ln st).2 = st := by
  have ht : errTruthy (store.search q cn ln).error = true := by
    rw [herr]; simp [errTruthy, hne]
  rw [execute_error_path store q cn ln st ht, herr]
  exact ⟨rfl, rfl⟩

/-- C3 witness: a concrete "connection timeout" error is returned verbatim and
the prior cache survives. -/
theorem C3_witness :
    (errStore.search "q" none none).error = some "connection timeout" ∧
    "connection timeout" ≠ "" ∧
    ((execute errStore "q" none none { last_sources := [staleSource] }).1 =
        "connection timeout" ∧
      (execute errStore "q" none none { last_sources := [staleSource] }).2 =
        { last_sources := [staleSource] }) :=
  ⟨rfl, by decide,
   C3_error_returned_verbatim errStore "q" none none { last_sources := [staleSource] }
     "connection timeout" rfl (by decide)⟩

/-- C4 counterexample: with `course_name` supplied as the empty string and
`lesson_number` supplied as 0, the empty-result message carries no filter
suffix at all — `if course_name:` and `if lesson_number:` drop falsy filter
values, contradicting "whenever the filter was supplied (including
lesson_number = 0)". -/
theorem C4_counterexample :
    (execute emptyStore "xyz" (some "") (some 0) { last_sources := [] }).1 =
      "No relevant content found." ∧
    (execute emptyStore "xyz" (some "") (some 0) { last_sources := [] }).1 ≠
      "No relevant content found in course \x27\x27 in lesson 0." := by
  exact ⟨by decide, by decide⟩

/-- C4 amended: on the empty-result path the returned string is
"No relevant content found", followed by " in course '<course_name>'" whenever
the course_name filter was supplied with a non-empty value, followed by
" in lesson <lesson_number>" whenever the lesson_number filter was supplied
with a non-zero value (Python truthiness drops a falsy filter), in that order
with no separator, ending with ".". -/
theorem C4_empty_message (store : VectorStore) (q : String) (cn : Option String)
    (ln : Option Int) (st : ToolState)
    (herr : errTruthy (store.search q cn ln).error = false)
    (hemp : (store.search q cn ln).is_empty = true) :
    (execute store q cn ln st).1 =
      "No relevant content found"
      ++ (match cn with
          | none => ""
          | some c => if c = "" then "" else " in course \x27" ++ c ++ "\x27")
      ++ (match ln with
          | none => ""
          | some n => if n = 0 then "" else " in lesson " ++ toString n)
      ++ "." := by
  rw [execute_empty_path store q cn ln st herr hemp]
  simp only [filterInfo]
  cases cn with
  | none =>
    cases ln with
    | none => simp [strTruthy, intTruthy]
    | some n => by_cases hn : n = 0 <;> simp [strTruthy, intTruthy, hn]
  | some c =>
    cases ln with
    | none => by_cases hc : c = "" <;> simp [strTruthy, intTruthy, hc]
    | some n =>
      by_cases hc : c = "" <;> by_cases hn : n = 0 <;>
        simp [strTruthy, intTruthy, hc, hn, String.append_assoc]

/-- C4 witness: the spec's own scenario — an empty result under a course
filter — evaluated concretely. -/
theorem C4_witness :
    errTruthy (emptyStore.search "xyz" (some "Nonexistent") none).error = false ∧
    (emptyStore.search "xyz" (some "Nonexistent") none).is_empty = true ∧
    (execute emptyStore "xyz" (some "Nonexistent") none { last_sources := [] }).1 =
      "No relevant content found in course \x27Nonexistent\x27." :=
  ⟨rfl, rfl,
   (C4_empty_message emptyStore "xyz" (some "Nonexistent") none { last_sources := [] }
      rfl rfl).trans (by decide)⟩

/-- C5 counterexample: one and the same error-path call, made from two
different prior caches, leaves two different caches — so the post-call cache
is not a fresh list computed by that call. -/
theorem C5_counterexample :
    (execute errStore "q" none none { last_sources := [staleSource] }).2.last_sources ≠
      (execute errStore "q" none none { last_sources := [] }).2.last_sources := by
  decide

/-- C5 amended: the cached list is fully replaced (never merged) by the
freshly computed source list on the formatting path only; a call that hits the
error path or the empty-result path leaves the previously cached list
untouched. -/
theorem C5_cache_replacement (store : VectorStore) (q : String) (cn : Option String)
    (ln : Option Int) (st : ToolState) :
    (execute store q cn ln st).2.last_sources =
      (if errTruthy (store.search q cn ln).error = true then st.last_sources
       else if (store.search q cn ln).is_empty = true then st.last_sources
       else (format_results store.catalog (store.search q cn ln)).2) := by
  by_cases h1 : errTruthy (store.search q cn ln).error = true
  · rw [execute_error_path store q cn ln st h1, if_pos h1]
  · have h1f : errTruthy (store.search q cn ln).error = false := by
      simpa using h1
    by_cases h2 : (store.search q cn ln).is_empty = true
    · rw [execute_empty_path store q cn ln st h1f h2, if_neg h1, if_pos h2]
    · have h2f : (store.search q cn ln).is_empty = false := by
        simpa using h2
      rw [execute_format_path store q cn ln st h1f h2f, if_neg h1, if_neg h2]

/-- C8: two consecutive `execute` calls with identical arguments against an
unchanged store return identical formatted text and leave identical cached
source lists. -/
theorem C8_idempotent (store : VectorStore) (q : String) (cn : Option String)
    (ln : Option Int) (st : ToolState) :
    (execute store q cn ln (execute store q cn ln st).2).1 =
      (execute store q cn ln st).1 ∧
    (execute store q cn ln (execute store q cn ln st).2).2.last_sources =
      (execute store q cn ln st).2.last_sources := by
  by_cases h1 : errTruthy (store.search q cn ln).error = true
  · rw [execute_error_path store q cn ln st h1,
      execute_error_path store q cn ln _ h1]
    exact ⟨rfl, rfl⟩
  · have h1f : errTruthy (store.search q cn ln).error = false := by
      simpa using h1
    by_cases h2 : (store.search q cn ln).is_empty = true
    · rw [execute_empty_path store q cn ln st h1f h2,
        execute_empty_path store q cn ln _ h1f h2]
      exact ⟨rfl, rfl⟩
    · have h2f : (store.search q cn ln).is_empty = false := by
        simpa using h2
      rw [execute_format_path store q cn ln st h1f h2f,
        execute_format_path store q cn ln _ h1f h2f]
      exact ⟨rfl, rfl⟩

/-- C9: an empty-result call (no error, zero hits) leaves the tool state
exactly as it was, so a manager holding this tool still reports the source
list of the earlier successful search. -/
theorem C9_empty_preserves_cache (store : VectorStore) (q : String)
    (cn : Option String) (ln : Option Int) (st : ToolState) (nm : String)
    (herr : errTruthy (store.search q cn ln).error = false)
    (hemp : (store.search q cn ln).is_empty = true) :
    (execute store q cn ln st).2 = st ∧
    get_last_sources [(nm, MTool.searchTool (execute store q cn ln st).2)] =
      st.last_sources := by
  have he := execute_empty_path store q cn ln st herr hemp
  constructor
  · rw [he]
  · rw [he]
    exact get_last_sources_single [] [] nm st (by simp) (by simp)

/-- C9 witness: after a successful search filled the cache, a concrete
empty-result call leaves it readable through the manager. -/
theorem C9_witness :
    errTruthy (emptyStore.search "later query" none none).error = false ∧
    (emptyStore.search "later query" none none).is_empty = true ∧
    ((execute emptyStore "later query" none none
          { last_sources := [staleSource] }).2 = { last_sources := [staleSource] } ∧
      get_last_sources [("search_course_content",
          MTool.searchTool (execute emptyStore "later query" none none
            { last_sources := [staleSource] }).2)] = [staleSource]) :=
  ⟨rfl, rfl,
   C9_empty_preserves_cache emptyStore "later query" none none
     { last_sources := [staleSource] } "search_course_content" rfl rfl⟩

end SearchTools

namespace SearchTools

/-- C1: on a non-empty, error-free result set, the cached source list contains
exactly one Source per distinct (course_title, lesson_number) key occurring
among the hits — the record built for that key at its first occurrence, in
first-occurrence order, with pairwise distinct keys — while every hit,
including later ones bearing an already-seen key, still produces its own
formatted text block. -/
theorem C1_source_dedup_invariant (store : VectorStore) (q : String)
    (cn : Option String) (ln : Option Int) (st : ToolState)
    (herr : errTruthy (store.search q cn ln).error = false)
    (hne : (store.search q cn ln).is_empty = false) :
    (execute store q cn ln st).2.last_sources =
      (dedupKeys (((store.search q cn ln).documents.zip
          (store.search q cn ln).metadata).map fun p => hitKey p.2) []).map
        (fun k => mkSource store.catalog k.1 k.2) ∧
    (execute store q cn ln st).2.last_sources.map Source.key =
      dedupKeys (((store.search q cn ln).documents.zip
          (store.search q cn ln).metadata).map fun p => hitKey p.2) [] ∧
    ((execute store q cn ln st).2.last_sources.map Source.key).Nodup ∧
    (formatLoop store.catalog
        ((store.search q cn ln).documents.zip (store.search q cn ln).metadata)
        []).1.length =
      ((store.search q cn ln).documents.zip (store.search q cn ln).metadata).length := by
  have hkeys : ∀ (ks : List (String × Option Int)),
      (ks.map (fun k => mkSource store.catalog k.1 k.2)).map Source.key = ks := by
    intro ks
    induction ks with
    | nil => rfl
    | cons k ks ih => simp [mkSource_key, ih]
  have hsrc : (execute store q cn ln st).2.last_sources =
      (dedupKeys (((store.search q cn ln).documents.zip
          (store.search q cn ln).metadata).map fun p => hitKey p.2) []).map
        (fun k => mkSource store.catalog k.1 k.2) := by
    rw [execute_format_path store q cn ln st herr hne]
    exact format_results_snd store.catalog (store.search q cn ln)
  refine ⟨hsrc, ?_, ?_, ?_⟩
  · rw [hsrc, hkeys]
  · rw [hsrc, hkeys]
    exact dedupKeys_nodup _ []
  · rw [formatLoop_eq store.catalog
      ((store.search q cn ln).documents.zip (store.search q cn ln).metadata) []]
    simp

/-- C1 witness: on a concrete result set with a duplicated key, the cache
holds one key per distinct hit key. -/
theorem C1_witness :
    errTruthy (demoStore.search "dedup query" none none).error = false ∧
    (demoStore.search "dedup query" none none).is_empty = false ∧
    (execute demoStore "dedup query" none none
        { last_sources := [] }).2.last_sources.map Source.key =
      [("MCP", some 1), ("MCP", some 2)] :=
  ⟨rfl, rfl,
   ((C1_source_dedup_invariant demoStore "dedup query" none none { last_sources := [] }
       rfl rfl).2.1).trans (by decide)⟩

/-- C6: when the catalog lookup for a course title fails — the title is not
found, the lookup raises, or the stored lesson list fails to parse — `execute`
still returns the formatted text, and every Source cached for that course
keeps its course_title and lesson_number from the hit while course_link,
instructor, lesson_title and lesson_link are all null. -/
theorem C6_catalog_failure_degrades (store : VectorStore) (q : String)
    (cn : Option String) (ln : Option Int) (st : ToolState) (ct : String)
    (herr : errTruthy (store.search q cn ln).error = false)
    (hne : (store.search q cn ln).is_empty = false)
    (hfail : store.catalog ct = RawCatalog.raiseExc ∨
             store.catalog ct = RawCatalog.noEntry ∨
             ∃ l i, store.catalog ct =
               RawCatalog.entry l i (some LessonsJson.parseError)) :
    (execute store q cn ln st).1 =
      (format_results store.catalog (store.search q cn ln)).1 ∧
    ∀ s ∈ (execute store q cn ln st).2.last_sources, s.course_title = ct →
      s.course_link = none ∧ s.instructor = none ∧
      s.lesson_title = none ∧ s.lesson_link = none := by
  have hmeta := get_course_metadata_none store.catalog ct hfail
  have he := execute_format_path store q cn ln st herr hne
  constructor
  · rw [he]
  · intro s hs hct
    rw [he] at hs
    simp only at hs
    rw [format_results_snd] at hs
    obtain ⟨k, hk, rfl⟩ := List.mem_map.mp hs
    have h1 : (mkSource store.catalog k.1 k.2).course_title = k.1 :=
      congrArg Prod.fst (mkSource_key store.catalog k.1 k.2)
    rw [h1] at hct
    rw [hct, mkSource_of_no_metadata store.catalog ct k.2 hmeta]
    exact ⟨rfl, rfl, rfl, rfl⟩

/-- C6 witness: a store whose catalog always raises still yields formatted
text, and the cached Source for the affected course has all optional fields
null. -/
theorem C6_witness :
    errTruthy (failCatStore.search "q" none none).error = false ∧
    (failCatStore.search "q" none none).is_empty = false ∧
    (failCatStore.catalog "Ghost" = RawCatalog.raiseExc ∨
      failCatStore.catalog "Ghost" = RawCatalog.noEntry ∨
      ∃ l i, failCatStore.catalog "Ghost" =
        RawCatalog.entry l i (some LessonsJson.parseError)) ∧
    ((execute failCatStore "q" none none { last_sources := [] }).1 =
        (format_results failCatStore.catalog (failCatStore.search "q" none none)).1 ∧
      ∀ s ∈ (execute failCatStore "q" none none
          { last_sources := [] }).2.last_sources, s.course_title = "Ghost" →
        s.course_link = none ∧ s.instructor = none ∧
        s.lesson_title = none ∧ s.lesson_link = none) :=
  ⟨rfl, rfl, Or.inl rfl,
   C6_catalog_failure_degrades failCatStore "q" none none { last_sources := [] }
     "Ghost" rfl rfl (Or.inl rfl)⟩

/-- C7: after an `execute` call that formatted a non-empty result set, a
ToolManager in which that CourseSearchTool is the only registered tool carrying
a source cache returns from `get_last_sources` exactly the list cached by that
call, same elements in the same order. -/
theorem C7_manager_returns_cached (store : VectorStore) (q : String)
    (cn : Option String) (ln : Option Int) (st : ToolState) (nm : String)
    (pre post : List (String × MTool))
    (herr : errTruthy (store.search q cn ln).error = false)
    (hne : (store.search q cn ln).is_empty = false)
    (hpre : ∀ t ∈ pre, t.2 = MTool.otherTool)
    (hpost : ∀ t ∈ post, t.2 = MTool.otherTool) :
    get_last_sources
        (pre ++ (nm, MTool.searchTool (execute store q cn ln st).2) :: post) =
      (execute store q cn ln st).2.last_sources :=
  get_last_sources_single pre post nm _ hpre hpost

/-- C7 witness: a registry with two cache-less tools around the search tool
reports exactly the freshly cached list. -/
theorem C7_witness :
    errTruthy (demoStore.search "manager query" none none).error = false ∧
    (demoStore.search "manager query" none none).is_empty = false ∧
    get_last_sources
        [("other", MTool.otherTool),
         ("search_course_content",
           MTool.searchTool (execute demoStore "manager query" none none
             { last_sources := [] }).2),
         ("other2", MTool.otherTool)] =
      (execute demoStore "manager query" none none { last_sources := [] }).2.last_sources :=
  ⟨rfl, rfl,
   C7_manager_returns_cached demoStore "manager query" none none { last_sources := [] }
     "search_course_content" [("other", MTool.otherTool)] [("other2", MTool.otherTool)]
     rfl rfl (by decide) (by decide)⟩

/-- C10: `_format_results` consumes only the first min(|documents|,|metadata|)
(document, metadata) pairs — truncating both sequences to that length changes
nothing — and the loop emits exactly that many formatted blocks, the surplus
elements of the longer sequence being silently ignored. -/
theorem C10_mismatched_lengths (catalog : String → RawCatalog)
    (docs : List String) (metas : List HitMeta) (e : Option String) :
    format_results catalog { documents := docs, metadata := metas, error := e } =
      format_results catalog
        { documents := docs.take (min docs.length metas.length)
          metadata := metas.take (min docs.length metas.length)
          error := e } ∧
    (formatLoop catalog (docs.zip metas) []).1.length =
      min docs.length metas.length := by
  constructor
  · simp only [format_results]
    rw [zip_take_min docs metas]
  · rw [formatLoop_eq catalog (docs.zip metas) []]
    simp

end SearchTools
